import Mathlib

/-!
Shallow embedding of the mireb1/alimireb backend (Node/Express/Mongoose) —
the parts exercised by the frozen claims:

* pagination envelope (`src/backend/src/utils/response.js`, `sendPaginatedResponse`),
* product/lead listing query + skip/limit (`productController.getAllProducts`,
  `leadController.getAllLeads`),
* stock adjustment (`productController.updateStock` + `productSchema.stock` min-0
  validator in `src/backend/src/models/Product.js`),
* lead creation and lifecycle methods (`leadController.createLead`,
  `leadSchema.methods.updateStatus/assignTo/scheduleFollowUp`,
  `leadSchema.statics.getStats/getNeedingFollowUp`, lead statistics in
  `leadController.getLeadStats`),
* pagination validation (`validation.validatePagination`).

Machine numbers are modelled as `Int`/`Nat` (the JS values in play are integers),
dates as integer epoch milliseconds, ISO timestamps as opaque strings passed in
explicitly, and the Mongo store as an explicit list of records.  Apostrophes in
French message strings from the source are transliterated to a plain space.
-/

namespace Alimireb

/-- Lead status enumeration, `leadSchema.status.enum`
(`['nouveau','contacte','interesse','converti','perdu']`). -/
inductive LeadStatus
  | nouveau
  | contacte
  | interesse
  | converti
  | perdu
deriving DecidableEq, Repr

/-- A Lead document, following `leadSchema` (unnamed part holding Lead model).
`createdAt` comes from mongoose `timestamps: true`; `followUpDate` is optional. -/
structure Lead where
  nom : String
  tel : String
  message : String
  produit : Nat
  status : LeadStatus
  source : String
  notes : String
  assignedTo : Option Nat
  followUpDate : Option Int
  isArchived : Bool
  createdAt : Int
deriving DecidableEq, Repr

/-- A Product document, following `productSchema` in `models/Product.js`. -/
structure Product where
  nom : String
  prix : Int
  categorie : String
  stock : Int
  description : String
  isActive : Bool
  featured : Bool
  views : Nat
  createdAt : Int
deriving DecidableEq, Repr

/-- An API error as produced by `sendError(res, statusCode, message)` in
`utils/response.js`. -/
structure ApiError where
  status : Nat
  message : String
deriving DecidableEq, Repr

/-- The pagination block built by `sendPaginatedResponse` in `utils/response.js`. -/
structure Pagination where
  currentPage : Nat
  totalPages : Nat
  totalItems : Nat
  itemsPerPage : Nat
  hasNextPage : Bool
  hasPrevPage : Bool
  nextPage : Option Nat
  prevPage : Option Nat
deriving DecidableEq, Repr

/-- `sendPaginatedResponse` (`utils/response.js` lines 272-291):
`totalPages = Math.ceil(total / limit)`, `hasNextPage = page < totalPages`,
`hasPrevPage = page > 1`, `nextPage = hasNextPage ? page + 1 : null`,
`prevPage = hasPrevPage ? page - 1 : null`.  With `limit ≥ 1`,
`Math.ceil(total / limit) = (total + limit - 1) / limit` in `Nat` division. -/
def sendPaginatedResponse (page limit total : Nat) : Pagination :=
  let totalPages := (total + limit - 1) / limit
  let hasNextPage := page < totalPages
  let hasPrevPage := 1 < page
  { currentPage := page
    totalPages := totalPages
    totalItems := total
    itemsPerPage := limit
    hasNextPage := hasNextPage
    hasPrevPage := hasPrevPage
    nextPage := if hasNextPage then some (page + 1) else none
    prevPage := if hasPrevPage then some (page - 1) else none }

theorem nat_ceil_div_facts (total limit : Nat) (hl : 1 ≤ limit) :
    total ≤ ((total + limit - 1) / limit) * limit ∧
    ((total + limit - 1) / limit) * limit < total + limit := by
  have e := Nat.div_add_mod (total + limit - 1) limit
  have hr : (total + limit - 1) % limit < limit := Nat.mod_lt _ hl
  have hx : limit * ((total + limit - 1) / limit) = ((total + limit - 1) / limit) * limit :=
    Nat.mul_comm _ _
  set m := ((total + limit - 1) / limit) * limit with hm
  rw [hx] at e
  omega

/-- With `limit ≥ 1`, the `Nat` formula `(total + limit - 1) / limit` is the
rational ceiling of `total / limit`. -/
theorem totalPages_eq_ceil (total limit : Nat) (hl : 1 ≤ limit) :
    (((total + limit - 1) / limit : ℕ) : ℤ) = ⌈(total : ℚ) / (limit : ℚ)⌉ := by
  have h := nat_ceil_div_facts total limit hl
  have hlq : (0 : ℚ) < (limit : ℚ) := by exact_mod_cast hl
  have h1 : (total : ℚ) ≤ (((total + limit - 1) / limit : ℕ) : ℚ) * (limit : ℚ) := by
    exact_mod_cast h.1
  have h2 : (((total + limit - 1) / limit : ℕ) : ℚ) * (limit : ℚ) < (total : ℚ) + limit := by
    exact_mod_cast h.2
  have hz : ((((total + limit - 1) / limit : ℕ) : ℤ) : ℚ)
      = (((total + limit - 1) / limit : ℕ) : ℚ) := by
    norm_cast
  symm
  rw [Int.ceil_eq_iff]
  rw [hz]
  constructor
  · rw [lt_div_iff₀ hlq]
    linarith
  · rw [div_le_iff₀ hlq]
    linarith

/-- C2: for every paginated response built from `page`, `limit ≥ 1` and `total`,
the envelope satisfies `totalPages = ⌈total/limit⌉`, `hasNextPage ↔ page < totalPages`,
`hasPrevPage ↔ page > 1`, `nextPage = page + 1` exactly when a next page exists and
`null` (`none`) otherwise, symmetrically for `prevPage`, and the envelope carries the
current page, the total item count and the items-per-page. -/
theorem C2_pagination_envelope (page limit total : Nat) (hl : 1 ≤ limit) :
    ((sendPaginatedResponse page limit total).totalPages : ℤ)
        = ⌈(total : ℚ) / (limit : ℚ)⌉ ∧
    ((sendPaginatedResponse page limit total).hasNextPage = true ↔
        page < (sendPaginatedResponse page limit total).totalPages) ∧
    ((sendPaginatedResponse page limit total).hasPrevPage = true ↔ 1 < page) ∧
    (sendPaginatedResponse page limit total).nextPage =
        (if page < (sendPaginatedResponse page limit total).totalPages
         then some (page + 1) else none) ∧
    (sendPaginatedResponse page limit total).prevPage =
        (if 1 < page then some (page - 1) else none) ∧
    (sendPaginatedResponse page limit total).currentPage = page ∧
    (sendPaginatedResponse page limit total).totalItems = total ∧
    (sendPaginatedResponse page limit total).itemsPerPage = limit := by
  refine ⟨?_, ?_, ?_, ?_, ?_, rfl, rfl, rfl⟩
  · exact totalPages_eq_ceil total limit hl
  · simp [sendPaginatedResponse]
  · simp [sendPaginatedResponse]
  · simp [sendPaginatedResponse]
  · simp [sendPaginatedResponse]

/-- Witness for C2 at `page = 2`, `limit = 10`, `total = 25`. -/
theorem C2_pagination_envelope_witness :
    ((sendPaginatedResponse 2 10 25).totalPages : ℤ) = ⌈(25 : ℚ) / (10 : ℚ)⌉ ∧
    ((sendPaginatedResponse 2 10 25).hasNextPage = true ↔
        2 < (sendPaginatedResponse 2 10 25).totalPages) ∧
    ((sendPaginatedResponse 2 10 25).hasPrevPage = true ↔ 1 < 2) ∧
    (sendPaginatedResponse 2 10 25).nextPage =
        (if 2 < (sendPaginatedResponse 2 10 25).totalPages then some 3 else none) ∧
    (sendPaginatedResponse 2 10 25).prevPage = (if 1 < 2 then some 1 else none) ∧
    (sendPaginatedResponse 2 10 25).currentPage = 2 ∧
    (sendPaginatedResponse 2 10 25).totalItems = 25 ∧
    (sendPaginatedResponse 2 10 25).itemsPerPage = 10 :=
  C2_pagination_envelope 2 10 25 (by decide)

/-! ## Listing engine: store find with sort / skip / limit -/

/-- Insert into a sorted list, keeping earlier elements first on ties
(stable insertion modelling the store's sort). -/
def insertSorted (le : α → α → Bool) (a : α) : List α → List α
  | [] => [a]
  | b :: bs => if le a b then a :: b :: bs else b :: insertSorted le a bs

/-- Insertion sort modelling the Entity Store's `sort` stage (an external
collaborator per the design; only that it is a reordering matters here). -/
def sortRecords (le : α → α → Bool) : List α → List α
  | [] => []
  | a :: as => insertSorted le a (sortRecords le as)

theorem length_insertSorted (le : α → α → Bool) (a : α) (l : List α) :
    (insertSorted le a l).length = l.length + 1 := by
  induction l with
  | nil => rfl
  | cons b bs ih =>
    unfold insertSorted
    by_cases h : le a b = true
    · simp [h]
    · simp [h, ih]

theorem length_sortRecords (le : α → α → Bool) (l : List α) :
    (sortRecords le l).length = l.length := by
  induction l with
  | nil => rfl
  | cons a as ih => simp [sortRecords, length_insertSorted, ih]

theorem mem_insertSorted (le : α → α → Bool) (a x : α) (l : List α) :
    x ∈ insertSorted le a l ↔ x = a ∨ x ∈ l := by
  induction l with
  | nil => simp [insertSorted]
  | cons b bs ih =>
    unfold insertSorted
    by_cases h : le a b = true <;> simp [h, ih] <;> tauto

theorem mem_sortRecords (le : α → α → Bool) (x : α) (l : List α) :
    x ∈ sortRecords le l ↔ x ∈ l := by
  induction l with
  | nil => simp [sortRecords]
  | cons a as ih => simp [sortRecords, mem_insertSorted, ih]

/-- The store's `Model.find(query).sort(s).limit(limit).skip(skip)`:
filter by the query, order by the resolved sort, then apply skip and limit
(Mongo applies `skip` before `limit` regardless of chaining order). -/
def storeFind (records : List α) (q : α → Bool) (le : α → α → Bool)
    (skip limit : Nat) : List α :=
  ((sortRecords le (records.filter q)).drop skip).take limit

/-- `Model.countDocuments(query)`: number of matching records, pagination aside. -/
def countDocuments (records : List α) (q : α → Bool) : Nat :=
  (records.filter q).length

/-- Case-insensitive substring match, modelling `{$regex: s, $options: 'i'}`
for a search string without regex metacharacters. -/
def containsCI (hay needle : String) : Bool :=
  decide (List.IsInfix needle.toLower.data hay.toLower.data)

/-- Query parameters of `getAllProducts` (`productController.js` lines 9-20). -/
structure ProductQueryParams where
  categorie : Option String
  minPrice : Option Int
  maxPrice : Option Int
  search : Option String
  featured : Option Bool
deriving Repr

/-- The Mongo query object built by `getAllProducts` (`productController.js`
lines 22-46): `isActive: true` plus optional category equality, inclusive price
bounds, featured equality, and an `$or` regex search over `nom`/`description`. -/
def productQuery (p : ProductQueryParams) (x : Product) : Bool :=
  x.isActive &&
  (match p.categorie with | none => true | some c => decide (x.categorie = c)) &&
  (match p.minPrice with | none => true | some m => decide (m ≤ x.prix)) &&
  (match p.maxPrice with | none => true | some m => decide (x.prix ≤ m)) &&
  (match p.featured with | none => true | some f => decide (x.featured = f)) &&
  (match p.search with
   | none => true
   | some s => containsCI x.nom s || containsCI x.description s)

/-- Query parameters of `getAllLeads` (lead controller, unnamed part, lines 46-56). -/
structure LeadQueryParams where
  status : Option LeadStatus
  assignedTo : Option Nat
  produit : Option Nat
  search : Option String
  dateFrom : Option Int
  dateTo : Option Int
deriving Repr

/-- The Mongo query object built by `getAllLeads` (lead controller lines 58-88):
`isArchived: false` plus optional status / assignee / product equality, an `$or`
regex search over `nom`/`tel`/`message`, and inclusive creation-date bounds. -/
def leadQuery (p : LeadQueryParams) (l : Lead) : Bool :=
  !l.isArchived &&
  (match p.status with | none => true | some s => decide (l.status = s)) &&
  (match p.assignedTo with | none => true | some u => decide (l.assignedTo = some u)) &&
  (match p.produit with | none => true | some pid => decide (l.produit = pid)) &&
  (match p.search with
   | none => true
   | some s => containsCI l.nom s || containsCI l.tel s || containsCI l.message s) &&
  (match p.dateFrom with | none => true | some d => decide (d ≤ l.createdAt)) &&
  (match p.dateTo with | none => true | some d => decide (l.createdAt ≤ d))

/-- Result of a paginated listing endpoint: the `data` array, the `total`
count, and the pagination block of the response `meta`. -/
structure ListResult (α : Type) where
  data : List α
  total : Nat
  pagination : Pagination
deriving Repr

/-- `getAllProducts` (`productController.js` lines 9-70): build the query,
fetch with sort / `limit` / `skip((page-1)*limit)`, count matching documents,
and reply through `sendPaginatedResponse`.  The resolved sort comparator
(`sortOptions[sortBy] = dir`) is passed in as `le`. -/
def getAllProducts (products : List Product) (p : ProductQueryParams)
    (le : Product → Product → Bool) (page limit : Nat) : ListResult Product :=
  let q := productQuery p
  let data := storeFind products q le ((page - 1) * limit) limit
  let total := countDocuments products q
  ⟨data, total, sendPaginatedResponse page limit total⟩

/-- `getAllLeads` (lead controller lines 46-107): build the query, fetch with
`sort({createdAt: -1})` / `limit` / `skip((page-1)*limit)`, count matching
documents, and reply through `sendPaginatedResponse`. -/
def getAllLeads (leads : List Lead) (p : LeadQueryParams)
    (page limit : Nat) : ListResult Lead :=
  let q := leadQuery p
  let data := storeFind leads q (fun a b => decide (b.createdAt ≤ a.createdAt))
      ((page - 1) * limit) limit
  let total := countDocuments leads q
  ⟨data, total, sendPaginatedResponse page limit total⟩

theorem storeFind_length_le (records : List α) (q : α → Bool)
    (le : α → α → Bool) (skip limit : Nat) :
    (storeFind records q le skip limit).length ≤ limit := by
  unfold storeFind
  exact (List.length_take_le _ _)

theorem storeFind_getElem? (records : List α) (q : α → Bool)
    (le : α → α → Bool) (skip limit : Nat) (i : Nat) (hi : i < limit) :
    (storeFind records q le skip limit)[i]? =
      (sortRecords le (records.filter q))[skip + i]? := by
  unfold storeFind
  rw [List.getElem?_take_of_lt hi, List.getElem?_drop]

theorem storeFind_empty_beyond (records : List α) (q : α → Bool)
    (le : α → α → Bool) (skip limit : Nat)
    (h : (records.filter q).length ≤ skip) :
    storeFind records q le skip limit = [] := by
  unfold storeFind
  rw [List.drop_eq_nil_of_le, List.take_nil]
  rw [length_sortRecords]
  exact h

/-- Past the last page, the skip offset reaches past every matching record. -/
theorem skip_beyond_totalPages (total page limit : Nat) (hl : 1 ≤ limit)
    (h : (total + limit - 1) / limit < page) :
    total ≤ (page - 1) * limit := by
  have hfacts := nat_ceil_div_facts total limit hl
  have h1 : (total + limit - 1) / limit ≤ page - 1 := by omega
  calc total ≤ ((total + limit - 1) / limit) * limit := hfacts.1
    _ ≤ (page - 1) * limit := Nat.mul_le_mul_right limit h1

/-- C1: for every listing request with valid `page ≥ 1` and `limit ≥ 1`,
for products as well as leads: the data array is exactly a window of the
sorted matching records starting at offset `(page−1)×limit` (the query skips
exactly that many records), it holds at most `limit` records, the reported
total counts all matching records before pagination, and a page beyond
`totalPages` yields an empty data array while the envelope is still the
ordinary envelope for that page/limit/total (no error). -/
theorem C1_listing_pagination (products : List Product) (leads : List Lead)
    (pp : ProductQueryParams) (lp : LeadQueryParams)
    (le : Product → Product → Bool) (page limit : Nat)
    (hpage : 1 ≤ page) (hlimit : 1 ≤ limit) :
    ((getAllProducts products pp le page limit).data.length ≤ limit ∧
     (getAllProducts products pp le page limit).total =
        (products.filter (productQuery pp)).length ∧
     (∀ i, i < limit →
        (getAllProducts products pp le page limit).data[i]? =
          (sortRecords le (products.filter (productQuery pp)))[(page - 1) * limit + i]?) ∧
     (getAllProducts products pp le page limit).pagination =
        sendPaginatedResponse page limit (getAllProducts products pp le page limit).total ∧
     ((getAllProducts products pp le page limit).pagination.totalPages < page →
        (getAllProducts products pp le page limit).data = [])) ∧
    ((getAllLeads leads lp page limit).data.length ≤ limit ∧
     (getAllLeads leads lp page limit).total = (leads.filter (leadQuery lp)).length ∧
     (∀ i, i < limit →
        (getAllLeads leads lp page limit).data[i]? =
          (sortRecords (fun a b => decide (b.createdAt ≤ a.createdAt))
            (leads.filter (leadQuery lp)))[(page - 1) * limit + i]?) ∧
     (getAllLeads leads lp page limit).pagination =
        sendPaginatedResponse page limit (getAllLeads leads lp page limit).total ∧
     ((getAllLeads leads lp page limit).pagination.totalPages < page →
        (getAllLeads leads lp page limit).data = [])) := by
  constructor
  · refine ⟨storeFind_length_le _ _ _ _ _, rfl,
      fun i hi => storeFind_getElem? _ _ _ _ _ i hi, rfl, fun hbeyond => ?_⟩
    apply storeFind_empty_beyond
    exact skip_beyond_totalPages _ _ _ hlimit hbeyond
  · refine ⟨storeFind_length_le _ _ _ _ _, rfl,
      fun i hi => storeFind_getElem? _ _ _ _ _ i hi, rfl, fun hbeyond => ?_⟩
    apply storeFind_empty_beyond
    exact skip_beyond_totalPages _ _ _ hlimit hbeyond

/-- A concrete product used to instantiate theorems with hypotheses. -/
def sampleProduct : Product :=
  { nom := "Chaise"
    prix := 45
    categorie := "Mode"
    stock := 3
    description := "Une chaise"
    isActive := true
    featured := false
    views := 0
    createdAt := 0 }

/-- A concrete lead used to instantiate theorems with hypotheses. -/
def sampleLead : Lead :=
  { nom := "Alice"
    tel := "+33123456789"
    message := "Interessee"
    produit := 1
    status := LeadStatus.nouveau
    source := "website"
    notes := ""
    assignedTo := none
    followUpDate := none
    isArchived := false
    createdAt := 0 }

/-- Witness for C1 at a one-product / one-lead store, `page = 3`, `limit = 1`:
page 3 is beyond `totalPages = 1`, so the product data array is empty, and the
lead listing obeys the limit bound with the total still counting the match. -/
theorem C1_listing_pagination_witness :
    (getAllProducts [sampleProduct] ⟨none, none, none, none, none⟩
        (fun _ _ => true) 3 1).data = [] ∧
    (getAllLeads [sampleLead] ⟨none, none, none, none, none, none⟩ 3 1).data.length ≤ 1 ∧
    (getAllLeads [sampleLead] ⟨none, none, none, none, none, none⟩ 3 1).total = 1 := by
  have h := C1_listing_pagination [sampleProduct] [sampleLead]
      ⟨none, none, none, none, none⟩ ⟨none, none, none, none, none, none⟩
      (fun _ _ => true) 3 1 (by decide) (by decide)
  exact ⟨h.1.2.2.2.2 (by decide), h.2.1, by decide⟩

/-! ## Stock adjustment (`productController.updateStock`) -/

/-- The `operation` field of the stock-update body; the controller's `switch`
treats any unrecognised value as `set` (the `default` branch), and the body
default is `'set'` as well, so the three-value model is faithful. -/
inductive StockOp
  | opSet
  | opAdd
  | opSubtract
deriving DecidableEq, Repr

/-- The `switch (operation)` of `updateStock` (`productController.js` lines
303-314): `add` is `stock += quantity`, `subtract` is
`stock = Math.max(0, stock - quantity)`, `set`/default is
`stock = Math.max(0, quantity)`. -/
def applyStockOp (stock : Int) (op : StockOp) (quantity : Int) : Int :=
  match op with
  | .opAdd => stock + quantity
  | .opSubtract => max 0 (stock - quantity)
  | .opSet => max 0 quantity

/-- `updateStock` (`productController.js` lines 289-326).  A non-numeric body
`quantity` (modelled as `none`) is rejected with 400 before anything else; an
unknown id is a 404; otherwise the switch runs and `product.save()` persists —
and `save` re-runs the schema validators, in particular the `stock` field's
`min: 0` validator (`models/Product.js` lines 39-44), so a negative resulting
stock is rejected as a 400 validation error instead of being stored. -/
def updateStock (store : Nat → Option Product) (id : Nat)
    (quantity : Option Int) (op : StockOp) : Except ApiError Product :=
  match quantity with
  | none => Except.error ⟨400, "Quantité invalide"⟩
  | some q =>
    match store id with
    | none => Except.error ⟨404, "Produit non trouvé"⟩
    | some p =>
      let newStock := applyStockOp p.stock op q
      if newStock < 0 then
        Except.error ⟨400, "Le stock ne peut pas être négatif"⟩
      else
        Except.ok { p with stock := newStock }

/-- C8: for every product and numeric quantity, `set` stores `max 0 quantity`,
`subtract` stores `max 0 (stock − quantity)`, every successful `add` stores the
unfloored `stock + quantity` (and `add` succeeds exactly on the requests whose
net result is non-negative), and a non-numeric quantity is rejected with a 400
without any product being touched. -/
theorem C8_adjustStock (store : Nat → Option Product) (id : Nat) (p : Product)
    (hp : store id = some p) (q : Int) :
    updateStock store id (some q) .opSet = Except.ok { p with stock := max 0 q } ∧
    updateStock store id (some q) .opSubtract =
        Except.ok { p with stock := max 0 (p.stock - q) } ∧
    (∀ r, updateStock store id (some q) .opAdd = Except.ok r →
        r.stock = p.stock + q) ∧
    (0 ≤ p.stock + q →
        updateStock store id (some q) .opAdd = Except.ok { p with stock := p.stock + q }) ∧
    (∀ op, updateStock store id none op = Except.error ⟨400, "Quantité invalide"⟩) := by
  refine ⟨?_, ?_, ?_, ?_, fun _ => rfl⟩
  · simp [updateStock, hp, applyStockOp, le_max_iff]
  · simp [updateStock, hp, applyStockOp, le_max_iff]
  · intro r hr
    simp only [updateStock, hp, applyStockOp] at hr
    by_cases h : p.stock + q < 0
    · simp [h] at hr
    · simp [h] at hr
      rw [← hr]
  · intro h
    simp [updateStock, hp, applyStockOp, not_lt.mpr h]

/-- Witness for C8 on the sample product (stock 3) at quantity −5. -/
theorem C8_adjustStock_witness :
    updateStock (fun i => if i = 7 then some sampleProduct else none) 7 (some (-5)) .opSet
        = Except.ok { sampleProduct with stock := 0 } ∧
    updateStock (fun i => if i = 7 then some sampleProduct else none) 7 (some (-5)) .opSubtract
        = Except.ok { sampleProduct with stock := 8 } ∧
    updateStock (fun i => if i = 7 then some sampleProduct else none) 7 none .opAdd
        = Except.error ⟨400, "Quantité invalide"⟩ := by
  have h := C8_adjustStock (fun i => if i = 7 then some sampleProduct else none) 7
      sampleProduct (by decide) (-5)
  refine ⟨?_, ?_, h.2.2.2.2 .opAdd⟩
  · rw [h.1]; rfl
  · rw [h.2.1]; rfl

/-- C9: the stock value stored by any completed `adjustStock` request is never
negative, whatever the operation and the sign or magnitude of the quantity:
`set` and `subtract` floor at 0 in the controller, and a negative `add` result
is rejected by the schema's `min: 0` stock validator when `save()` runs. -/
theorem C9_stock_never_negative (store : Nat → Option Product) (id : Nat)
    (quantity : Option Int) (op : StockOp) (r : Product)
    (h : updateStock store id quantity op = Except.ok r) :
    0 ≤ r.stock := by
  unfold updateStock at h
  cases quantity with
  | none => exact absurd h (by simp)
  | some q =>
    cases hs : store id with
    | none => rw [hs] at h; exact absurd h (by simp)
    | some p =>
      rw [hs] at h
      simp only [] at h
      by_cases hneg : applyStockOp p.stock op q < 0
      · simp [hneg] at h
      · simp [hneg] at h
        rw [← h]
        exact not_lt.mp hneg

/-- Witness for C9: adding −10 to the 3-in-stock sample product is the
interesting case — the request is rejected, so the only `ok` outcomes seen by
the theorem keep the stock non-negative; exercised here on `subtract 10`,
which succeeds with stock 0. -/
theorem C9_stock_never_negative_witness :
    0 ≤ (({ sampleProduct with stock := 0 } : Product)).stock ∧
    updateStock (fun _ => some sampleProduct) 0 (some 10) .opSubtract
        = Except.ok { sampleProduct with stock := 0 } :=
  ⟨C9_stock_never_negative (fun _ => some sampleProduct) 0 (some 10) .opSubtract
      { sampleProduct with stock := 0 } (by rfl), by rfl⟩

/-! ## Pagination validation (`middleware/validation.js`) -/

/-- `validatePagination` (`validation.js` lines 198-210): `page`, when present,
must be an integer ≥ 1; `limit`, when present, must be an integer between 1 and
100.  A violation produces a 400 validation error — the value is rejected, not
adjusted. -/
def validatePagination (page limit : Option Int) : Bool :=
  (match page with | none => true | some p => decide (1 ≤ p)) &&
  (match limit with | none => true | some l => decide (1 ≤ l ∧ l ≤ 100))

/-- The products listing route `GET /api/products`
(`routes/products.js`: `validatePagination` then `getAllProducts`): a failed
validation answers 400 and the controller never runs; otherwise the controller
applies its defaults `page = 1`, `limit = 12`. -/
def listProductsChecked (products : List Product) (p : ProductQueryParams)
    (le : Product → Product → Bool) (page limit : Option Int) :
    Except ApiError (ListResult Product) :=
  if validatePagination page limit then
    Except.ok (getAllProducts products p le (page.getD 1).toNat (limit.getD 12).toNat)
  else
    Except.error ⟨400, "Erreurs de validation"⟩

/-- The leads listing route `GET /api/leads`
(`routes/leads.js`: `validatePagination` then `getAllLeads`), controller
defaults `page = 1`, `limit = 20`. -/
def listLeadsChecked (leads : List Lead) (p : LeadQueryParams)
    (page limit : Option Int) : Except ApiError (ListResult Lead) :=
  if validatePagination page limit then
    Except.ok (getAllLeads leads p (page.getD 1).toNat (limit.getD 20).toNat)
  else
    Except.error ⟨400, "Erreurs de validation"⟩

/-- C10 counterexample: a supplied limit of 150 is not clamped to 100 — the
request fails with a 400 validation error and no listing is produced at all. -/
theorem C10_counterexample :
    listProductsChecked [sampleProduct] ⟨none, none, none, none, none⟩
        (fun _ _ => true) none (some 150)
      = Except.error ⟨400, "Erreurs de validation"⟩ ∧
    listLeadsChecked [sampleLead] ⟨none, none, none, none, none, none⟩ none (some 150)
      = Except.error ⟨400, "Erreurs de validation"⟩ :=
  ⟨rfl, rfl⟩

/-- C10 (amended): the limit defaults to 12 for products and 20 for leads when
absent; a supplied limit above the configured maximum of 100 (or below 1) is
rejected with a validation error rather than clamped; consequently every
request that reaches a controller has an effective per-page limit of at most
100 (and at least 1). -/
theorem C10_limit_bounds (products : List Product) (leads : List Lead)
    (p : ProductQueryParams) (lq : LeadQueryParams)
    (le : Product → Product → Bool) (page limit : Option Int) :
    (listProductsChecked products p le page none =
        Except.ok (getAllProducts products p le (page.getD 1).toNat 12) ∨
        ∃ e, listProductsChecked products p le page none = Except.error e) ∧
    (listLeadsChecked leads lq page none =
        Except.ok (getAllLeads leads lq (page.getD 1).toNat 20) ∨
        ∃ e, listLeadsChecked leads lq page none = Except.error e) ∧
    (∀ l : Int, 100 < l →
        listProductsChecked products p le page (some l) =
          Except.error ⟨400, "Erreurs de validation"⟩ ∧
        listLeadsChecked leads lq page (some l) =
          Except.error ⟨400, "Erreurs de validation"⟩) ∧
    (validatePagination page limit = true →
        1 ≤ (limit.getD 12).toNat ∧ (limit.getD 12).toNat ≤ 100 ∧
        1 ≤ (limit.getD 20).toNat ∧ (limit.getD 20).toNat ≤ 100) := by
  refine ⟨?_, ?_, ?_, ?_⟩
  · unfold listProductsChecked
    by_cases hv : validatePagination page none = true
    · left; simp [hv]
    · right
      exact ⟨⟨400, "Erreurs de validation"⟩, by simp [hv]⟩
  · unfold listLeadsChecked
    by_cases hv : validatePagination page none = true
    · left; simp [hv]
    · right
      exact ⟨⟨400, "Erreurs de validation"⟩, by simp [hv]⟩
  · intro l hl
    have hv : validatePagination page (some l) = false := by
      unfold validatePagination
      have : ¬ (1 ≤ l ∧ l ≤ 100) := by omega
      simp [this]
    constructor
    · unfold listProductsChecked
      simp [hv]
    · unfold listLeadsChecked
      simp [hv]
  · intro hv
    unfold validatePagination at hv
    cases limit with
    | none => simp
    | some l =>
      simp only [Bool.and_eq_true, decide_eq_true_eq] at hv
      have hl := hv.2
      constructor
      · simp [Option.getD]; omega
      constructor
      · simp [Option.getD]; omega
      constructor
      · simp [Option.getD]; omega
      · simp [Option.getD]; omega

/-- Witness for C10 (amended) with no supplied limit and a valid page 1:
both controllers run with their defaults 12 and 20, and the bound conjunct is
exercised at a supplied limit of 100. -/
theorem C10_limit_bounds_witness :
    listLeadsChecked [sampleLead] ⟨none, none, none, none, none, none⟩
        (some 1) none
      = Except.ok (getAllLeads [sampleLead] ⟨none, none, none, none, none, none⟩ 1 20) ∧
    (1 ≤ ((some (100 : Int)).getD 12).toNat ∧ ((some (100 : Int)).getD 12).toNat ≤ 100) := by
  have h := C10_limit_bounds [sampleProduct] [sampleLead]
      ⟨none, none, none, none, none⟩ ⟨none, none, none, none, none, none⟩
      (fun _ _ => true) (some 1) (some 100)
  exact ⟨rfl, (h.2.2.2 (by decide)).1, (h.2.2.2 (by decide)).2.1⟩

/-! ## Lead creation (`leadController.createLead`) -/

/-- `Lead.create({nom, tel, message, produit})` with the schema defaults
(`leadSchema`): `status: 'nouveau'`, `source: 'website'`, `notes: ''`,
no assignee, no follow-up date, `isArchived: false`; `createdAt` is stamped
by `timestamps: true`. -/
def mkLead (nom tel message : String) (produit : Nat) (createdAt : Int) : Lead :=
  { nom := nom
    tel := tel
    message := message
    produit := produit
    status := LeadStatus.nouveau
    source := "website"
    notes := ""
    assignedTo := none
    followUpDate := none
    isArchived := false
    createdAt := createdAt }

/-- `createLead` (lead controller lines 10-39): look the referenced product up;
absent → 404 `Produit non trouvé`; present but `!isActive` → 400
`Ce produit n est plus disponible` (apostrophe transliterated); otherwise the
lead is created with the schema defaults. -/
def createLead (store : Nat → Option Product) (nom tel message : String)
    (produit : Nat) (now : Int) : Except ApiError Lead :=
  match store produit with
  | none => Except.error ⟨404, "Produit non trouvé"⟩
  | some p =>
    if !p.isActive then
      Except.error ⟨400, "Ce produit n est plus disponible"⟩
    else
      Except.ok (mkLead nom tel message produit now)

/-- C3: creating a lead against a nonexistent product id is a 404 rejection;
against an existing but inactive product a distinct 400 "no longer available"
rejection (different from the not-found one); against an active product it
succeeds and the stored lead's status is the initial state `nouveau`. -/
theorem C3_createLead (store : Nat → Option Product) (produit : Nat)
    (nom tel message : String) (now : Int) :
    (store produit = none →
        createLead store nom tel message produit now =
          Except.error ⟨404, "Produit non trouvé"⟩) ∧
    (∀ p, store produit = some p → p.isActive = false →
        createLead store nom tel message produit now =
          Except.error ⟨400, "Ce produit n est plus disponible"⟩ ∧
        (⟨400, "Ce produit n est plus disponible"⟩ : ApiError) ≠
          ⟨404, "Produit non trouvé"⟩) ∧
    (∀ p, store produit = some p → p.isActive = true →
        ∃ l, createLead store nom tel message produit now = Except.ok l ∧
          l.status = LeadStatus.nouveau) := by
  refine ⟨fun h => by simp [createLead, h], ?_, ?_⟩
  · intro p hp hinactive
    refine ⟨by simp [createLead, hp, hinactive], by decide⟩
  · intro p hp hactive
    exact ⟨mkLead nom tel message produit now,
      by simp [createLead, hp, hactive], rfl⟩

/-- Witness for C3: an inactive copy of the sample product at id 1 gives the
"no longer available" rejection; the missing id 2 gives the 404. -/
theorem C3_createLead_witness :
    createLead (fun i => if i = 1 then some { sampleProduct with isActive := false }
        else none) "Bob" "+243811111111" "" 1 0 =
      Except.error ⟨400, "Ce produit n est plus disponible"⟩ ∧
    createLead (fun i => if i = 1 then some { sampleProduct with isActive := false }
        else none) "Bob" "+243811111111" "" 2 0 =
      Except.error ⟨404, "Produit non trouvé"⟩ := by
  constructor
  · exact ((C3_createLead (fun i => if i = 1 then
        some { sampleProduct with isActive := false } else none)
        1 "Bob" "+243811111111" "" 0).2.1
        { sampleProduct with isActive := false } rfl rfl).1
  · exact (C3_createLead (fun i => if i = 1 then
        some { sampleProduct with isActive := false } else none)
        2 "Bob" "+243811111111" "" 0).1 rfl

/-! ## Lead lifecycle methods (`leadSchema.methods`) -/

/-- `leadSchema.methods.updateStatus(newStatus, notes)` (Lead model lines
271-277): set the status; when a non-empty note is supplied, the notes become
`` `${this.notes}\n\n${new Date().toISOString()}: ${notes}` `` if prior notes
exist, and just `notes` when the prior log is empty.  `ts` stands for the ISO
timestamp produced at call time. -/
def updateStatus (l : Lead) (newStatus : LeadStatus) (ts note : String) : Lead :=
  { l with
    status := newStatus
    notes :=
      if note = "" then l.notes
      else if l.notes = "" then note
      else l.notes ++ "\n\n" ++ ts ++ ": " ++ note }

/-- `leadSchema.methods.assignTo(userId, notes)` (Lead model lines 280-286):
the appended entry is tagged `Assigné - ` when prior notes exist. -/
def assignTo (l : Lead) (userId : Nat) (ts note : String) : Lead :=
  { l with
    assignedTo := some userId
    notes :=
      if note = "" then l.notes
      else if l.notes = "" then note
      else l.notes ++ "\n\n" ++ ts ++ ": Assigné - " ++ note }

/-- `leadSchema.methods.scheduleFollowUp(date, notes)` (Lead model lines
289-295): sets the follow-up date (past dates permitted); the appended entry is
tagged `Suivi programmé - ` when prior notes exist. -/
def scheduleFollowUp (l : Lead) (date : Int) (ts note : String) : Lead :=
  { l with
    followUpDate := some date
    notes :=
      if note = "" then l.notes
      else if l.notes = "" then note
      else l.notes ++ "\n\n" ++ ts ++ ": Suivi programmé - " ++ note }

/-- The plain note append of `updateLead` (lead controller lines 156-162), run
when notes are supplied without status/assignee/follow-up changes. -/
def appendPlainNote (l : Lead) (ts note : String) : Lead :=
  { l with
    notes :=
      if note = "" then l.notes
      else if l.notes = "" then note
      else l.notes ++ "\n\n" ++ ts ++ ": " ++ note }

/-- `deleteLead` (lead controller lines 176-189): archival sets the flag. -/
def archiveLead (l : Lead) : Lead :=
  { l with isArchived := true }

/-- `getLeadById` (lead controller lines 114-126): plain id lookup, no
archived-flag check. -/
def getLeadById (store : Nat → Option Lead) (id : Nat) : Except ApiError Lead :=
  match store id with
  | none => Except.error ⟨404, "Lead non trouvé"⟩
  | some l => Except.ok l

/-- C5 counterexample: on a freshly created lead the notes log is empty, and
the first non-empty note is stored bare — the new value is not the prior log
extended with a blank line, timestamp and separator (the claimed format would
be `"\n\n2024-01-01T00:00:00.000Z: premier"`), and it carries no timestamp at
all. -/
theorem C5_counterexample :
    (updateStatus (mkLead "Alice" "+33123456789" "" 1 0) LeadStatus.contacte
        "2024-01-01T00:00:00.000Z" "premier").notes = "premier" ∧
    ("premier" : String) ≠
      (mkLead "Alice" "+33123456789" "" 1 0).notes ++ "\n\n" ++
        "2024-01-01T00:00:00.000Z" ++ ": " ++ "premier" := by
  exact ⟨rfl, by decide⟩

theorem notes_extend (prior ts tag note : String) (h : note ≠ "") :
    ∃ suffix, (if note = "" then prior
      else if prior = "" then note
      else prior ++ "\n\n" ++ ts ++ tag ++ note) = prior ++ suffix := by
  by_cases hp : prior = ""
  · refine ⟨note, ?_⟩
    rw [if_neg h, if_pos hp, hp]
    cases note with
    | mk d => rfl
  · exact ⟨"\n\n" ++ ts ++ tag ++ note, by rw [if_neg h, if_neg hp]; simp [String.append_assoc]⟩

/-- C5 (amended): the notes audit log is append-only — every lifecycle
operation given a non-empty note leaves the prior notes as a prefix of the new
value; when the prior log is non-empty the new value is exactly the prior log
extended with a blank-line separator, the ISO timestamp, a separator (plus the
`Assigné` / `Suivi programmé` tag for assignment and follow-up scheduling) and
the note text; when the prior log is empty the note text is stored alone,
without a timestamp.  Two sequential note appends on a fresh lead therefore
keep both notes in chronological order, but only the second is prefixed with
its own timestamp. -/
theorem C5_notes_append_only (l : Lead) (s : LeadStatus) (u : Nat) (d : Int)
    (ts note : String) (h : note ≠ "") :
    (∃ a, (updateStatus l s ts note).notes = l.notes ++ a) ∧
    (∃ b, (assignTo l u ts note).notes = l.notes ++ b) ∧
    (∃ c, (scheduleFollowUp l d ts note).notes = l.notes ++ c) ∧
    (∃ e, (appendPlainNote l ts note).notes = l.notes ++ e) ∧
    (l.notes ≠ "" →
      (updateStatus l s ts note).notes = l.notes ++ "\n\n" ++ ts ++ ": " ++ note ∧
      (assignTo l u ts note).notes = l.notes ++ "\n\n" ++ ts ++ ": Assigné - " ++ note ∧
      (scheduleFollowUp l d ts note).notes =
        l.notes ++ "\n\n" ++ ts ++ ": Suivi programmé - " ++ note ∧
      (appendPlainNote l ts note).notes = l.notes ++ "\n\n" ++ ts ++ ": " ++ note) ∧
    (l.notes = "" →
      (updateStatus l s ts note).notes = note ∧
      (appendPlainNote l ts note).notes = note) ∧
    (∀ ts2 note2, note2 ≠ "" → l.notes = "" →
        (appendPlainNote (appendPlainNote l ts note) ts2 note2).notes =
          note ++ "\n\n" ++ ts2 ++ ": " ++ note2) := by
  refine ⟨?_, ?_, ?_, ?_, ?_, ?_, ?_⟩
  · simpa [updateStatus] using notes_extend l.notes ts ": " note h
  · simpa [assignTo, String.append_assoc] using
      notes_extend l.notes ts ": Assigné - " note h
  · simpa [scheduleFollowUp, String.append_assoc] using
      notes_extend l.notes ts ": Suivi programmé - " note h
  · simpa [appendPlainNote] using notes_extend l.notes ts ": " note h
  · intro hp
    refine ⟨?_, ?_, ?_, ?_⟩ <;>
      simp [updateStatus, assignTo, scheduleFollowUp, appendPlainNote, h, hp,
        String.append_assoc]
  · intro hp
    constructor <;> simp [updateStatus, appendPlainNote, h, hp]
  · intro ts2 note2 h2 hp
    simp [appendPlainNote, h, h2, hp]

/-- Witness for C5 (amended): two sequential plain note appends on a fresh
lead produce a log holding both notes in order, the second timestamped. -/
theorem C5_notes_append_only_witness :
    (appendPlainNote (appendPlainNote (mkLead "Alice" "+33123456789" "" 1 0)
        "T1" "premier") "T2" "second").notes =
      "premier" ++ "\n\n" ++ "T2" ++ ": " ++ "second" :=
  (C5_notes_append_only (mkLead "Alice" "+33123456789" "" 1 0)
      LeadStatus.nouveau 0 0 "T1" "premier" (by decide)).2.2.2.2.2.2
    "T2" "second" (by decide) rfl

/-! ## Follow-up query and statistics -/

/-- `leadSchema.statics.getNeedingFollowUp` (Lead model lines 317-324):
`find({followUpDate: {$lte: now}, status: {$nin: ['converti','perdu']},
isArchived: false})`.  A document without a `followUpDate` does not match the
`$lte` clause. -/
def getNeedingFollowUp (leads : List Lead) (now : Int) : List Lead :=
  leads.filter fun l =>
    (match l.followUpDate with | none => false | some d => decide (d ≤ now)) &&
    !(decide (l.status = LeadStatus.converti) || decide (l.status = LeadStatus.perdu)) &&
    !l.isArchived

/-- `leadSchema.statics.getStats` (Lead model lines 298-314): the `$group` by
`$status` runs over the whole collection — there is no `$match` on
`isArchived`.  Modelled as the per-status count. -/
def getStats (leads : List Lead) (s : LeadStatus) : Nat :=
  (leads.filter fun l => decide (l.status = s)).length

/-- The trailing-30-day activity aggregation of `getLeadStats` (lead controller
lines 259-273): `$match {createdAt: {$gte: thirtyDaysAgo}, isArchived: false}`
then `$group` by calendar day; the day key is modelled as the epoch-day of
`createdAt`. -/
def recentActivity (leads : List Lead) (cutoff day : Int) : Nat :=
  (leads.filter fun l =>
    decide (cutoff ≤ l.createdAt) && !l.isArchived &&
    decide (l.createdAt / 86400000 = day)).length

/-- The top-products aggregation of `getLeadStats` (lead controller lines
276-295): `$match {isArchived: false}` then `$group` by `$produit` with
`$sum 1`; modelled as the per-product lead count that the subsequent
`$sort`/`$limit 10` ranking consumes. -/
def topProductsCount (leads : List Lead) (pid : Nat) : Nat :=
  (leads.filter fun l => !l.isArchived && decide (l.produit = pid)).length

/-- `Lead.countDocuments({isArchived: false})` (lead controller line 298). -/
def totalLeadsCount (leads : List Lead) : Nat :=
  countDocuments leads fun l => !l.isArchived

/-- `Lead.countDocuments({status: 'converti', isArchived: false})` (lead
controller lines 299-302). -/
def convertedLeadsCount (leads : List Lead) : Nat :=
  countDocuments leads fun l => decide (l.status = LeadStatus.converti) && !l.isArchived

/-- `conversionRate = totalLeads > 0 ? (convertedLeads / totalLeads * 100).toFixed(2) : 0`
(lead controller line 303).  `toFixed(2)` keeps the value rounded to two decimal
places; modelled over ℚ as rounding `x · 100` to the nearest integer and
dividing back by 100. -/
def conversionRate (converted total : Nat) : ℚ :=
  if 0 < total then ((round (((converted : ℚ) / total * 100) * 100) : ℤ) : ℚ) / 100
  else 0

/-- C4: `dueForFollowUp` returns exactly the non-archived leads with a
follow-up date at or before the current instant whose status is neither
`converti` nor `perdu`; a freshly created lead scheduled with a past date and
no note is included, and once its status is updated to `converti` it is
excluded. -/
theorem C4_dueForFollowUp (leads : List Lead) (now : Int) :
    (∀ l, l ∈ getNeedingFollowUp leads now ↔
      l ∈ leads ∧ l.isArchived = false ∧
      (∃ d, l.followUpDate = some d ∧ d ≤ now) ∧
      l.status ≠ LeadStatus.converti ∧ l.status ≠ LeadStatus.perdu) ∧
    (∀ nom tel msg pid t0 d ts ls, d ≤ now →
      scheduleFollowUp (mkLead nom tel msg pid t0) d ts "" ∈ ls →
      scheduleFollowUp (mkLead nom tel msg pid t0) d ts "" ∈
        getNeedingFollowUp ls now) ∧
    (∀ (l : Lead) (ts note : String) (ls : List Lead),
      updateStatus l LeadStatus.converti ts note ∉ getNeedingFollowUp ls now) := by
  have hchar : ∀ l : Lead, l ∈ getNeedingFollowUp leads now ↔
      l ∈ leads ∧ l.isArchived = false ∧
      (∃ d, l.followUpDate = some d ∧ d ≤ now) ∧
      l.status ≠ LeadStatus.converti ∧ l.status ≠ LeadStatus.perdu := by
    intro l
    unfold getNeedingFollowUp
    rw [List.mem_filter]
    cases hfd : l.followUpDate with
    | none => simp [hfd]
    | some d => simp [hfd]; tauto
  refine ⟨hchar, ?_, ?_⟩
  · intro nom tel msg pid t0 d ts ls hd hmem
    unfold getNeedingFollowUp
    rw [List.mem_filter]
    exact ⟨hmem, by simp [scheduleFollowUp, mkLead, hd]⟩
  · intro l ts note ls hmem
    unfold getNeedingFollowUp at hmem
    rw [List.mem_filter] at hmem
    have := hmem.2
    simp [updateStatus] at this

/-- Witness for C4: the sample lead scheduled yesterday is due today; after
conversion it is not. -/
theorem C4_dueForFollowUp_witness :
    scheduleFollowUp (mkLead "Alice" "+33123456789" "" 1 0) (-1) "T" "" ∈
      getNeedingFollowUp [scheduleFollowUp (mkLead "Alice" "+33123456789" "" 1 0)
        (-1) "T" ""] 0 ∧
    updateStatus (scheduleFollowUp (mkLead "Alice" "+33123456789" "" 1 0) (-1) "T" "")
        LeadStatus.converti "T2" "" ∉
      getNeedingFollowUp [updateStatus (scheduleFollowUp
        (mkLead "Alice" "+33123456789" "" 1 0) (-1) "T" "")
        LeadStatus.converti "T2" ""] 0 := by
  have h := C4_dueForFollowUp
      [scheduleFollowUp (mkLead "Alice" "+33123456789" "" 1 0) (-1) "T" ""] 0
  exact ⟨h.2.1 "Alice" "+33123456789" "" 1 0 (-1) "T" _ (by decide) (by simp),
    h.2.2 _ "T2" "" _⟩

/-- C6: the conversion rate is `converted ÷ total` with both counted over
non-archived leads only, expressed as a percentage rounded to two decimal
places (within half a hundredth of the exact percentage, and an exact multiple
of 1/100), and is exactly 0, with no division error, when no non-archived lead
exists. -/
theorem C6_conversionRate (leads : List Lead) :
    convertedLeadsCount leads =
      ((leads.filter fun l => !l.isArchived).filter
        fun l => decide (l.status = LeadStatus.converti)).length ∧
    totalLeadsCount leads = (leads.filter fun l => !l.isArchived).length ∧
    (totalLeadsCount leads = 0 →
      conversionRate (convertedLeadsCount leads) (totalLeadsCount leads) = 0) ∧
    (0 < totalLeadsCount leads →
      |conversionRate (convertedLeadsCount leads) (totalLeadsCount leads) -
          (convertedLeadsCount leads : ℚ) / (totalLeadsCount leads) * 100| ≤ 1 / 200 ∧
      ∃ z : ℤ, conversionRate (convertedLeadsCount leads) (totalLeadsCount leads) * 100
          = z) := by
  refine ⟨?_, rfl, ?_, ?_⟩
  · unfold convertedLeadsCount countDocuments
    rw [List.filter_filter]
  · intro h
    rw [h]
    simp [conversionRate]
  · intro ht
    set c := convertedLeadsCount leads
    set t := totalLeadsCount leads
    set y : ℚ := (c : ℚ) / t * 100 * 100 with hy
    constructor
    · have habs : |(round y : ℚ) - y| ≤ 1 / 2 := by
        rw [abs_sub_comm]
        exact abs_sub_round y
      have hrw : conversionRate c t - (c : ℚ) / t * 100 = ((round y : ℚ) - y) / 100 := by
        rw [conversionRate, if_pos ht, hy]
        ring
      rw [hrw, abs_div, abs_of_pos (by norm_num : (0:ℚ) < 100)]
      calc |(round y : ℚ) - y| / 100 ≤ (1 / 2) / 100 := by
            apply div_le_div_of_nonneg_right habs (by norm_num)
        _ = 1 / 200 := by norm_num
    · refine ⟨round y, ?_⟩
      rw [conversionRate, if_pos ht, hy]
      ring

/-- A three-lead store: one converted, two new, none archived. -/
def demoLeads : List Lead :=
  [{ sampleLead with status := LeadStatus.converti },
   sampleLead,
   { sampleLead with nom := "Carol" }]

/-- Witness for C6 on `demoLeads` (1 converted of 3): the rounded rate is
within half a hundredth of the exact 100/3 percent, and on an empty store the
rate is exactly 0. -/
theorem C6_conversionRate_witness :
    |conversionRate (convertedLeadsCount demoLeads) (totalLeadsCount demoLeads) -
        (convertedLeadsCount demoLeads : ℚ) / (totalLeadsCount demoLeads) * 100|
      ≤ 1 / 200 ∧
    conversionRate (convertedLeadsCount []) (totalLeadsCount []) = 0 :=
  ⟨((C6_conversionRate demoLeads).2.2.2 (by decide)).1,
   (C6_conversionRate []).2.2.1 rfl⟩

/-- C7 counterexample: an archived converted lead is still counted by the
count-by-status statistic — `getStats` aggregates with no `isArchived` match,
so the claim that archived leads are excluded from all statistics fails on
the count-by-status grouping. -/
theorem C7_counterexample :
    getStats [{ sampleLead with status := LeadStatus.converti, isArchived := true }]
        LeadStatus.converti = 1 ∧
    ({ sampleLead with status := LeadStatus.converti, isArchived := true } : Lead).isArchived
        = true :=
  ⟨rfl, rfl⟩

/-- C7 (amended): archiving a lead sets its archived flag; an archived lead is
excluded from the default listing, from the trailing-30-day counts, from the
top-products ranking and from both conversion-rate counts — though not from
the count-by-status grouping, which aggregates over archived leads too — and
remains retrievable by direct identifier lookup. -/
theorem C7_archive_exclusions (leads : List Lead) (l : Lead)
    (h : l.isArchived = true) :
    (∀ l0 : Lead, (archiveLead l0).isArchived = true) ∧
    (∀ p page limit, l ∉ (getAllLeads leads p page limit).data) ∧
    (∀ cutoff day, recentActivity (l :: leads) cutoff day =
        recentActivity leads cutoff day) ∧
    (∀ pid, topProductsCount (l :: leads) pid = topProductsCount leads pid) ∧
    (totalLeadsCount (l :: leads) = totalLeadsCount leads ∧
     convertedLeadsCount (l :: leads) = convertedLeadsCount leads) ∧
    (∀ store id, store id = some l → getLeadById store id = Except.ok l) := by
  refine ⟨fun _ => rfl, ?_, ?_, ?_, ⟨?_, ?_⟩, ?_⟩
  · intro p page limit hmem
    have h1 : l ∈ sortRecords (fun a b => decide (b.createdAt ≤ a.createdAt))
        (leads.filter (leadQuery p)) :=
      List.mem_of_mem_drop (List.mem_of_mem_take hmem)
    rw [mem_sortRecords] at h1
    have h2 := (List.mem_filter.mp h1).2
    simp [leadQuery, h] at h2
  · intro cutoff day
    simp [recentActivity, h]
  · intro pid
    simp [topProductsCount, h]
  · simp [totalLeadsCount, countDocuments, h]
  · simp [convertedLeadsCount, countDocuments, h]
  · intro store id hs
    simp [getLeadById, hs]

/-- Witness for C7 (amended) on the archived sample lead: it does not change
the non-archived total, and a direct id lookup still returns it. -/
theorem C7_archive_exclusions_witness :
    totalLeadsCount [{ sampleLead with isArchived := true }] = totalLeadsCount [] ∧
    getLeadById (fun _ => some { sampleLead with isArchived := true }) 5 =
      Except.ok { sampleLead with isArchived := true } := by
  have h := C7_archive_exclusions [] { sampleLead with isArchived := true } rfl
  exact ⟨h.2.2.2.2.1.1, h.2.2.2.2.2 (fun _ => some { sampleLead with isArchived := true })
    5 rfl⟩

end Alimireb
